import Mathlib

/-!
Verification of the inkscore wallet scoring engine
(`src/api-server/src/services/points-service-v2.ts`).

The TypeScript service is embedded shallowly:

* JavaScript numbers are modelled by `JNum`: either `NaN` or a rational.
  Every JS comparison (`>=`, `<=`, `>`) is false on `NaN`, addition
  propagates `NaN`, and `x || 0` maps `NaN` (falsy) to `0`.
* `String.prototype.toLowerCase` on the ASCII contract addresses the
  service handles is modelled by `toLowerCase` below.
* The seventeen `fetch` calls of `calculateWalletScore` are modelled by a
  `FetchResult` per source: a rejected fetch (`transportError`), a non-2xx
  response (`notOk`, the code's `res.ok === false`), a 2xx response whose
  `res.json()` rejects (`malformed`), or a decoded payload (`ok`).
  `Promise.all` rejects when any fetch rejects, and a rejected `json()`
  propagates through the service's `try`/`catch` (which rethrows), so a
  `transportError` or `malformed` anywhere makes the whole call fail;
  a `notOk` source decodes to `null`.
* The two module-level caches are modelled by explicit state passing: each
  cache getter takes the current cache slot, the current time (`Date.now()`
  in milliseconds), and the outcome of the backing-store query, and returns
  the produced payload, the new cache slot, and whether the store was
  queried.  `calculateWalletScore` receives the meme-token set and rank
  list its cache getters produced.
-/

namespace InkScore

/-- A JavaScript number: `NaN` or a rational (the service only ever
produces finite values and `NaN`; infinities do not arise). -/
inductive JNum where
  | nan : JNum
  | num : ℚ → JNum
deriving DecidableEq, Repr

namespace JNum

/-- JS `+` on numbers: `NaN` propagates. -/
def add : JNum → JNum → JNum
  | num a, num b => num (a + b)
  | _, _ => nan

/-- JS `x >= c` against a numeric literal: false when `x` is `NaN`. -/
def geC : JNum → ℚ → Bool
  | nan, _ => false
  | num a, c => decide (c ≤ a)

/-- JS `x <= c` against a numeric literal: false when `x` is `NaN`. -/
def leC : JNum → ℚ → Bool
  | nan, _ => false
  | num a, c => decide (a ≤ c)

/-- JS `x > c` against a numeric literal: false when `x` is `NaN`. -/
def gtC : JNum → ℚ → Bool
  | nan, _ => false
  | num a, c => decide (c < a)

/-- JS `x || 0` on a number: `NaN` is falsy and becomes `0`
(`0 || 0` is `0`, the same value, so the numeric case is the identity). -/
def orZero : JNum → JNum
  | nan => num 0
  | num a => num a

end JNum

/-- JS `(v || 0)` where `v` is an optional numeric field:
an absent field (`undefined`) and `NaN` both become `0`. -/
def jnum (o : Option JNum) : JNum := (o.getD (.num 0)).orZero

/-- JS `(data?.field || 0)`: optional-chaining through a nullable payload
followed by `|| 0`. -/
def jfield {α : Type} (o : Option α) (f : α → Option JNum) : JNum :=
  jnum (o.bind f)

/-- JS `String.prototype.toLowerCase` restricted to ASCII, which covers the
hex contract addresses and wallet addresses the service lowercases. -/
def lowerChar (c : Char) : Char :=
  if 'A' ≤ c ∧ c ≤ 'Z' then Char.ofNat (c.toNat + 32) else c

/-- Lowercase a string (ASCII, see `lowerChar`). -/
def toLowerCase (s : String) : String := ⟨s.data.map lowerChar⟩

/-! ## Tier Resolver functions (lines 110–385 of the source) -/

/-- `calculateNftCollectionsPoints` (source lines 110–117). -/
def calculateNftCollectionsPoints (nftCount : JNum) : ℕ :=
  if nftCount.geC 10 then 400
  else if nftCount.geC 5 then 250
  else if nftCount.geC 3 then 150
  else if nftCount.geC 1 then 50
  else 0

/-- `calculateWalletAgePoints` (source lines 150–158).  The brackets test
`ageDays <= c`, so a `NaN` input falls through every test. -/
def calculateWalletAgePoints (ageDays : JNum) : ℕ :=
  if ageDays.leC 0 then 0
  else if ageDays.leC 30 then 100
  else if ageDays.leC 90 then 200
  else if ageDays.leC 180 then 300
  else if ageDays.leC 365 then 400
  else if ageDays.leC 730 then 500
  else 600

/-- `calculateTotalTxPoints` (source lines 160–168). -/
def calculateTotalTxPoints (txCount : JNum) : ℕ :=
  if txCount.leC 0 then 0
  else if txCount.leC 100 then 100
  else if txCount.leC 200 then 200
  else if txCount.leC 400 then 300
  else if txCount.leC 700 then 400
  else if txCount.leC 900 then 500
  else 600

/-- `getBridgeVolumeTierPoints` (source lines 178–186). -/
def getBridgeVolumeTierPoints (volumeUsd : JNum) : ℕ :=
  if volumeUsd.geC 10000 then 500
  else if volumeUsd.geC 5000 then 400
  else if volumeUsd.geC 1000 then 250
  else if volumeUsd.geC 100 then 100
  else if volumeUsd.geC 1 then 25
  else 0

/-- `calculateBridgeInPoints` (source lines 170–172). -/
def calculateBridgeInPoints (bridgeInVolumeUsd : JNum) : ℕ :=
  getBridgeVolumeTierPoints bridgeInVolumeUsd

/-- `calculateBridgeOutPoints` (source lines 174–176). -/
def calculateBridgeOutPoints (bridgeOutVolumeUsd : JNum) : ℕ :=
  getBridgeVolumeTierPoints bridgeOutVolumeUsd

/-- `calculateGmPoints` (source lines 197–204). -/
def calculateGmPoints (gmCount : JNum) : ℕ :=
  if gmCount.geC 150 then 400
  else if gmCount.geC 50 then 250
  else if gmCount.geC 10 then 150
  else if gmCount.geC 1 then 50
  else 0

/-- `calculateInkyPumpPoints` (source lines 206–220). -/
def calculateInkyPumpPoints (createdCount buyVolumeUsd sellVolumeUsd : JNum) : ℕ :=
  let createPoints : ℕ :=
    if createdCount.geC 3 then 50 else if createdCount.geC 1 then 25 else 0
  let totalVolume := buyVolumeUsd.add sellVolumeUsd
  let volumePoints : ℕ :=
    if totalVolume.geC 10000 then 350
    else if totalVolume.geC 1000 then 250
    else if totalVolume.geC 100 then 150
    else if totalVolume.geC 1 then 50
    else 0
  createPoints + volumePoints

/-- `getTydroSupplyTierPoints` (source lines 229–237). -/
def getTydroSupplyTierPoints (supplyUsd : JNum) : ℕ :=
  if supplyUsd.geC 50000 then 1250
  else if supplyUsd.geC 10000 then 1000
  else if supplyUsd.geC 1000 then 600
  else if supplyUsd.geC 100 then 250
  else if supplyUsd.geC 1 then 50
  else 0

/-- `getTydroBorrowTierPoints` (source lines 239–247). -/
def getTydroBorrowTierPoints (borrowUsd : JNum) : ℕ :=
  if borrowUsd.geC 25000 then 1250
  else if borrowUsd.geC 5000 then 1000
  else if borrowUsd.geC 500 then 600
  else if borrowUsd.geC 50 then 250
  else if borrowUsd.geC 1 then 50
  else 0

/-- `calculateTydroPoints` (source lines 222–227). -/
def calculateTydroPoints (supplyUsd borrowUsd : JNum) : ℕ :=
  getTydroSupplyTierPoints supplyUsd + getTydroBorrowTierPoints borrowUsd

/-- `calculateSwapVolumePoints` (source lines 249–257). -/
def calculateSwapVolumePoints (swapAmountUsd : JNum) : ℕ :=
  if swapAmountUsd.geC 25000 then 500
  else if swapAmountUsd.geC 10000 then 400
  else if swapAmountUsd.geC 5000 then 250
  else if swapAmountUsd.geC 1000 then 100
  else if swapAmountUsd.geC 1 then 25
  else 0

/-- `calculateShelliesPoints` (source lines 259–280). -/
def calculateShelliesPoints (playedGameCount stakedNftCount joinedRaffleCount : JNum) : ℕ :=
  let playPoints : ℕ :=
    if playedGameCount.geC 50 then 150
    else if playedGameCount.geC 10 then 75
    else if playedGameCount.geC 1 then 25
    else 0
  let stakePoints : ℕ :=
    if stakedNftCount.geC 5 then 150
    else if stakedNftCount.geC 3 then 100
    else if stakedNftCount.geC 1 then 50
    else 0
  let rafflePoints : ℕ :=
    if joinedRaffleCount.geC 10 then 100
    else if joinedRaffleCount.geC 5 then 50
    else if joinedRaffleCount.geC 1 then 25
    else 0
  playPoints + stakePoints + rafflePoints

/-- `calculateZnsPoints` (source lines 282–294). -/
def calculateZnsPoints (deployCount saidGmCount registerCount : JNum) : ℕ :=
  let registerPoints : ℕ :=
    if registerCount.geC 3 then 200 else if registerCount.geC 1 then 100 else 0
  let deployPoints : ℕ :=
    if deployCount.geC 3 then 50 else if deployCount.geC 1 then 20 else 0
  let gmPoints : ℕ :=
    if saidGmCount.geC 10 then 50 else if saidGmCount.geC 1 then 20 else 0
  registerPoints + deployPoints + gmPoints

/-- `calculateMarvkPoints` (source lines 296–308). -/
def calculateMarvkPoints (cardMintedCount lockTokenCount vestTokenCount : JNum) : ℕ :=
  let cardPoints : ℕ := if cardMintedCount.geC 1 then 100 else 0
  let lockPoints : ℕ :=
    if lockTokenCount.geC 5 then 100 else if lockTokenCount.geC 1 then 50 else 0
  let vestPoints : ℕ :=
    if vestTokenCount.geC 5 then 100 else if vestTokenCount.geC 1 then 50 else 0
  cardPoints + lockPoints + vestPoints

/-- `calculateNadoPoints` (source lines 310–331).  Note the lowest volume
bracket is `totalVolume >= 0`, awarding 50 points for a zero volume. -/
def calculateNadoPoints (totalDeposits totalVolume : JNum) : ℕ :=
  let depositPoints : ℕ :=
    if totalDeposits.geC 50000 then 1250
    else if totalDeposits.geC 10000 then 1000
    else if totalDeposits.geC 1000 then 600
    else if totalDeposits.geC 100 then 250
    else if totalDeposits.geC 1 then 50
    else 0
  let volumePoints : ℕ :=
    if totalVolume.geC 25000000 then 1250
    else if totalVolume.geC 10000000 then 1150
    else if totalVolume.geC 5000000 then 1000
    else if totalVolume.geC 1000000 then 800
    else if totalVolume.geC 500000 then 550
    else if totalVolume.geC 100000 then 300
    else if totalVolume.geC 0 then 50
    else 0
  depositPoints + volumePoints

/-- `calculateCopinkPoints` (source lines 333–346). -/
def calculateCopinkPoints (subaccountsFound totalVolume : JNum) : ℕ :=
  let volumePoints : ℕ :=
    if totalVolume.geC 10000 then 300
    else if totalVolume.geC 5000 then 250
    else if totalVolume.geC 1000 then 150
    else if totalVolume.geC 1 then 50
    else 0
  let subaccountPoints : ℕ :=
    if subaccountsFound.geC 3 then 100 else if subaccountsFound.geC 1 then 50 else 0
  volumePoints + subaccountPoints

/-- `calculateNft2mePoints` (source lines 348–360). -/
def calculateNft2mePoints (collectionCreatedCount nftMintedCount : JNum) : ℕ :=
  let collectionPoints : ℕ :=
    if collectionCreatedCount.geC 3 then 100
    else if collectionCreatedCount.geC 1 then 50
    else 0
  let mintPoints : ℕ :=
    if nftMintedCount.geC 100 then 200
    else if nftMintedCount.geC 10 then 100
    else if nftMintedCount.geC 1 then 50
    else 0
  collectionPoints + mintPoints

/-- `calculateNftTradingPoints` (source lines 369–385). -/
def calculateNftTradingPoints (squidCount netProtocolCount mintiqueCount : JNum) : ℕ :=
  let platformPoints : ℕ :=
    (if squidCount.gtC 0 then 50 else 0) +
    (if netProtocolCount.gtC 0 then 35 else 0) +
    (if mintiqueCount.gtC 0 then 15 else 0)
  let totalTrades := (squidCount.add netProtocolCount).add mintiqueCount
  let tradePoints : ℕ :=
    if totalTrades.geC 10 then 300
    else if totalTrades.geC 5 then 150
    else if totalTrades.geC 1 then 50
    else 0
  platformPoints + tradePoints

/-! ## Token holdings, meme classification (lines 27–55, 119–147) -/

/-- One entry of `tokenHoldings` (`{ address, usdValue }`; the optional
`symbol` field is never read by the scoring code). -/
structure TokenHolding where
  address : String
  usdValue : JNum
deriving DecidableEq, Repr

/-- The `reduce((sum, token) => sum + (Number(token.usdValue) || 0), 0)`
pattern used for both holdings filters and for `totalTokenValue`. -/
def sumUsd (tokens : List TokenHolding) : JNum :=
  tokens.foldl (fun sum t => sum.add t.usdValue.orZero) (.num 0)

/-- `calculateTokenHoldingsPoints` (source lines 119–132): sums the USD
value of non-meme holdings, then resolves the tier. -/
def calculateTokenHoldingsPoints (memeTokens : List String) (tokenHoldings : List TokenHolding) : ℕ :=
  let totalUsd := sumUsd
    (tokenHoldings.filter (fun t => !(memeTokens.contains (toLowerCase t.address))))
  if totalUsd = .nan then 0
  else if totalUsd.geC 10000 then 400
  else if totalUsd.geC 1000 then 300
  else if totalUsd.geC 100 then 150
  else if totalUsd.geC 1 then 50
  else 0

/-- `calculateMemeCoinsPoints` (source lines 134–147). -/
def calculateMemeCoinsPoints (memeTokens : List String) (tokenHoldings : List TokenHolding) : ℕ :=
  let totalUsd := sumUsd
    (tokenHoldings.filter (fun t => memeTokens.contains (toLowerCase t.address)))
  if totalUsd = .nan then 0
  else if totalUsd.geC 1000 then 300
  else if totalUsd.geC 500 then 200
  else if totalUsd.geC 100 then 100
  else if totalUsd.geC 1 then 50
  else 0

/-- The hardcoded fallback meme-token addresses (source lines 41–48). -/
def FALLBACK_MEME_ADDRESSES : List String :=
  [ "0x0606fc632ee812ba970af72f8489baaa443c4b98"
  , "0x20c69c12abf2b6f8d8ca33604dd25c700c7e70a5"
  , "0xd642b49d10cc6e1bc1c6945725667c35e0875f22"
  , "0x2a1bce657f919ac3f9ab50b2584cfc77563a02ec"
  , "0x32bcb803f696c99eb263d60a05cafd8689026575"
  , "0x62c99fac20b33b5423fdf9226179e973a8353e36" ]

/-- `isMemeToken` (source lines 52–55), applied to the address set the
cache getter produced. -/
def isMemeToken (memeTokens : List String) (address : String) : Bool :=
  memeTokens.contains (toLowerCase address)

/-! ## Rank model and rank resolution (lines 57–107) -/

/-- A row of the `ranks` table after the numeric-parsing step of
`getCachedRanks` (PostgreSQL `min_points`/`max_points` strings already
parsed to integers). -/
structure Rank where
  id : ℤ
  name : String
  min_points : ℤ
  max_points : Option ℤ
  logo_url : Option String
  color : Option String
  description : Option String
  display_order : ℤ
  is_active : Bool
deriving DecidableEq, Repr

/-- The loop-body test of `getRankForPoints`:
`totalPoints >= rank.min_points && (rank.max_points === null || totalPoints <= rank.max_points)`. -/
def rankContains (totalPoints : ℤ) (rank : Rank) : Bool :=
  decide (rank.min_points ≤ totalPoints) &&
    (match rank.max_points with
     | none => true
     | some m => decide (totalPoints ≤ m))

/-- `getRankForPoints` (source lines 97–107): first rank in list order
whose range contains the points, else `null`. -/
def getRankForPoints : List Rank → ℤ → Option Rank
  | [], _ => none
  | r :: rs, p => if rankContains p r then some r else getRankForPoints rs p

/-! ## The two registry caches (lines 9–95) -/

/-- `RanksCache` (source lines 10–13). -/
structure RanksCacheState where
  ranks : List Rank
  timestamp : ℤ
deriving DecidableEq, Repr

/-- `MemeTokensCache` (source lines 18–21). -/
structure MemeTokensCacheState where
  addresses : List String
  timestamp : ℤ
deriving DecidableEq, Repr

/-- `RANKS_CACHE_TTL = 60 * 1000` milliseconds. -/
def RANKS_CACHE_TTL : ℤ := 60 * 1000

/-- `MEME_TOKENS_CACHE_TTL = 5 * 60 * 1000` milliseconds. -/
def MEME_TOKENS_CACHE_TTL : ℤ := 5 * 60 * 1000

/-- `getCachedRanks` (source lines 57–95).  `cache` is the module-level
slot, `now` is `Date.now()`, `store` the outcome of the SQL query (rows
post numeric parsing).  Returns (payload, new cache slot, whether the
store was queried).  On a store failure the code returns `[]` and leaves
the cache slot unchanged. -/
def getCachedRanks (cache : Option RanksCacheState) (now : ℤ)
    (store : Except Unit (List Rank)) :
    List Rank × Option RanksCacheState × Bool :=
  match cache with
  | some c =>
    if now - c.timestamp < RANKS_CACHE_TTL then (c.ranks, some c, false)
    else
      match store with
      | .ok ranks => (ranks, some ⟨ranks, now⟩, true)
      | .error _ => ([], some c, true)
  | none =>
    match store with
    | .ok ranks => (ranks, some ⟨ranks, now⟩, true)
    | .error _ => ([], none, true)

/-- `getMemeTokenAddresses` (source lines 27–50).  `store` carries the
addresses of the meme coins returned by `assetsService.getMemeCoins()`;
on success every address is lowercased and cached; on failure the
hardcoded fallback list is returned and the cache slot is unchanged. -/
def getMemeTokenAddresses (cache : Option MemeTokensCacheState) (now : ℤ)
    (store : Except Unit (List String)) :
    List String × Option MemeTokensCacheState × Bool :=
  match cache with
  | some c =>
    if now - c.timestamp < MEME_TOKENS_CACHE_TTL then (c.addresses, some c, false)
    else
      match store with
      | .ok coins =>
        let addresses := coins.map toLowerCase
        (addresses, some ⟨addresses, now⟩, true)
      | .error _ => (FALLBACK_MEME_ADDRESSES, some c, true)
  | none =>
    match store with
    | .ok coins =>
      let addresses := coins.map toLowerCase
      (addresses, some ⟨addresses, now⟩, true)
    | .error _ => (FALLBACK_MEME_ADDRESSES, none, true)

/-! ## Source payload shapes (interfaces at lines 439–475 of the source)

Every numeric field is optional (`field?: number`); `CountResponse`'s
`total_value` is a string in the source and is consumed only through
`parseFloat(x?.total_value || '0')`, so it is modelled by the `JNum` that
`parseFloat` yields (`nan` for a non-numeric string), with `none`
standing for an absent or empty string (both of which the `|| '0'`
fallback turns into `0`). -/

structure NftCollectionEntry where
  count : Option JNum
deriving DecidableEq, Repr

structure WalletStats where
  nftCollections : Option (List NftCollectionEntry)
  tokenHoldings : Option (List TokenHolding)
  balanceUsd : Option JNum
  ageDays : Option JNum
  totalTxns : Option JNum
deriving DecidableEq, Repr

structure BridgeResponse where
  bridgedInUsd : Option JNum
  bridgedInCount : Option JNum
  bridgedOutUsd : Option JNum
  bridgedOutCount : Option JNum
deriving DecidableEq, Repr

structure SwapResponse where
  totalUsd : Option JNum
  txCount : Option JNum
deriving DecidableEq, Repr

structure TydroResponse where
  currentSupplyUsd : Option JNum
  currentBorrowUsd : Option JNum
  depositCount : Option JNum
  borrowCount : Option JNum
deriving DecidableEq, Repr

structure CountResponse where
  total_count : Option JNum
  total_value : Option JNum
deriving DecidableEq, Repr

structure ZnsResponse where
  total_count : Option JNum
  deploy_count : Option JNum
  say_gm_count : Option JNum
  register_domain_count : Option JNum
deriving DecidableEq, Repr

structure Nft2meResponse where
  collectionsCreated : Option JNum
  nftsMinted : Option JNum
  totalTransactions : Option JNum
deriving DecidableEq, Repr

structure ContractCount where
  contract_address : String
  count : JNum
deriving DecidableEq, Repr

structure NftTradingResponse where
  total_count : Option JNum
  by_contract : Option (List ContractCount)
deriving DecidableEq, Repr

structure MarvkResponse where
  lockTokenCount : Option JNum
  vestTokenCount : Option JNum
  cardMintedCount : Option JNum
  totalTransactions : Option JNum
deriving DecidableEq, Repr

structure NadoResponse where
  totalDeposits : Option JNum
  totalTransactions : Option JNum
  nadoVolumeUSD : Option JNum
deriving DecidableEq, Repr

structure CopinkResponse where
  totalVolume : Option JNum
  subaccountsFound : Option JNum
deriving DecidableEq, Repr

/-- `parseFloat(x?.total_value || '0')` (source lines 544–545). -/
def pfloat {α : Type} (o : Option α) (f : α → Option JNum) : JNum :=
  (o.bind f).getD (.num 0)

/-! ## Response model (types/platforms, as used at lines 388–625) -/

/-- One entry of `breakdown.native`. -/
structure NativeEntry where
  value : JNum
  points : ℕ
deriving DecidableEq, Repr

/-- One entry of `breakdown.platforms`. -/
structure PlatformEntry where
  tx_count : JNum
  usd_volume : JNum
  points : ℕ
deriving DecidableEq, Repr

/-- `WalletPointsBreakdown`, modelled as association lists in insertion
order (the code inserts into two string-keyed objects). -/
structure WalletPointsBreakdown where
  native : List (String × NativeEntry)
  platforms : List (String × PlatformEntry)
deriving DecidableEq, Repr

/-- The `rank` field of the response (source line 622):
`{ name, color, logo_url }`. -/
structure RankSummary where
  name : String
  color : Option String
  logo_url : Option String
deriving DecidableEq, Repr

/-- `WalletScoreResponse`; `last_updated` carries the `new Date()`
timestamp, modelled as the current time in milliseconds. -/
structure WalletScoreResponse where
  wallet_address : String
  total_points : ℕ
  rank : Option RankSummary
  breakdown : WalletPointsBreakdown
  last_updated : ℤ
deriving DecidableEq, Repr

/-- The NFT marketplace contract addresses (source lines 363–367). -/
def NFT_CONTRACTS_squid : String := "0x9ebf93fdba9f32accab3d6716322dccd617a78f3"

def NFT_CONTRACTS_netProtocol : String := "0xd00c96804e9ff35f10c7d2a92239c351ff3f94e5"

def NFT_CONTRACTS_mintique : String := "0xbd6a027b85fd5285b1623563bbef6fadbe396afb"

/-- `byContract.find(c => c.contract_address === addr)?.count || 0`
(source lines 584–586). -/
def contractCount (byContract : List ContractCount) (addr : String) : JNum :=
  jnum ((byContract.find? (fun c => c.contract_address == addr)).map (·.count))

/-! ## The Score Aggregator (lines 388–631) -/

/-- `supportedNftCount` (source line 498): sum of the per-collection
`count` fields, absent counts defaulting to 0. -/
def supportedNftCount (walletStats : WalletStats) : JNum :=
  (walletStats.nftCollections.getD []).foldl
    (fun sum col => sum.add (jnum col.count)) (.num 0)

/-- `allHoldings` (source lines 506–509): the token holdings plus a
synthetic zero-address entry carrying the native ETH balance. -/
def allHoldings (walletStats : WalletStats) : List TokenHolding :=
  walletStats.tokenHoldings.getD [] ++
    [⟨"0x0000000000000000000000000000000000000000", jnum walletStats.balanceUsd⟩]

/-- `memeTokenCount` (source line 518): how many raw holdings are
classified as meme tokens. -/
def memeTokenCount (memeTokens : List String) (walletStats : WalletStats) : ℕ :=
  ((walletStats.tokenHoldings.getD []).filter
    (fun t => memeTokens.contains (toLowerCase t.address))).length

/-- The success path of `calculateWalletScore` (source lines 497–625),
taking the decoded payloads (`none` = the source answered non-2xx and
decoded to `null`), the meme-token set and rank list produced by the two
cache getters, and the current time. -/
def computeScore (walletAddress : String) (walletStats : WalletStats)
    (bridgeData : Option BridgeResponse) (swapData : Option SwapResponse)
    (tydroData : Option TydroResponse) (gmData : Option CountResponse)
    (inkyPumpCreated inkyPumpBuy inkyPumpSell : Option CountResponse)
    (shelliesRaffles shelliesPayToPlay shelliesStaking : Option CountResponse)
    (znsData : Option ZnsResponse) (nft2meData : Option Nft2meResponse)
    (nftTradingData : Option NftTradingResponse) (marvkData : Option MarvkResponse)
    (nadoData : Option NadoResponse) (copinkData : Option CopinkResponse)
    (memeTokens : List String) (ranks : List Rank) (now : ℤ) :
    WalletScoreResponse :=
  let wallet := toLowerCase walletAddress
  let nftPoints := calculateNftCollectionsPoints (supportedNftCount walletStats)
  let tokenPoints := calculateTokenHoldingsPoints memeTokens (allHoldings walletStats)
  let totalTokenValue := sumUsd (allHoldings walletStats)
  let memePoints := calculateMemeCoinsPoints memeTokens (walletStats.tokenHoldings.getD [])
  let ageDays := jnum walletStats.ageDays
  let agePoints := calculateWalletAgePoints ageDays
  let totalTxns := jnum walletStats.totalTxns
  let txPoints := calculateTotalTxPoints totalTxns
  let bridgeInUsd := jfield bridgeData (·.bridgedInUsd)
  let bridgeOutUsd := jfield bridgeData (·.bridgedOutUsd)
  let bridgeInPoints := calculateBridgeInPoints bridgeInUsd
  let bridgeOutPoints := calculateBridgeOutPoints bridgeOutUsd
  let gmCount := jfield gmData (·.total_count)
  let gmPoints := calculateGmPoints gmCount
  let inkyPumpCreatedCount := jfield inkyPumpCreated (·.total_count)
  let inkyPumpBuyUsd := pfloat inkyPumpBuy (·.total_value)
  let inkyPumpSellUsd := pfloat inkyPumpSell (·.total_value)
  let inkyPumpPoints :=
    calculateInkyPumpPoints inkyPumpCreatedCount inkyPumpBuyUsd inkyPumpSellUsd
  let inkyPumpTotalUsd := inkyPumpBuyUsd.add inkyPumpSellUsd
  let tydroSupplyUsd := jfield tydroData (·.currentSupplyUsd)
  let tydroBorrowUsd := jfield tydroData (·.currentBorrowUsd)
  let tydroPoints := calculateTydroPoints tydroSupplyUsd tydroBorrowUsd
  let swapUsd := jfield swapData (·.totalUsd)
  let swapPoints := calculateSwapVolumePoints swapUsd
  let shelliesPlayedCount := jfield shelliesPayToPlay (·.total_count)
  let shelliesStakedCount := jfield shelliesStaking (·.total_count)
  let shelliesRafflesCount := jfield shelliesRaffles (·.total_count)
  let shelliesPoints :=
    calculateShelliesPoints shelliesPlayedCount shelliesStakedCount shelliesRafflesCount
  let znsDeployCount := jfield znsData (·.deploy_count)
  let znsSaidGmCount := jfield znsData (·.say_gm_count)
  let znsRegisterCount := jfield znsData (·.register_domain_count)
  let znsPoints := calculateZnsPoints znsDeployCount znsSaidGmCount znsRegisterCount
  let nft2meCollectionsCount := jfield nft2meData (·.collectionsCreated)
  let nft2meMintedCount := jfield nft2meData (·.nftsMinted)
  let nft2mePoints := calculateNft2mePoints nft2meCollectionsCount nft2meMintedCount
  let byContract := (nftTradingData.bind (·.by_contract)).getD []
  let squidCount := contractCount byContract NFT_CONTRACTS_squid
  let netProtocolCount := contractCount byContract NFT_CONTRACTS_netProtocol
  let mintiqueCount := contractCount byContract NFT_CONTRACTS_mintique
  let nftTradingPoints := calculateNftTradingPoints squidCount netProtocolCount mintiqueCount
  let marvkCardMinted := jfield marvkData (·.cardMintedCount)
  let marvkLockCount := jfield marvkData (·.lockTokenCount)
  let marvkVestCount := jfield marvkData (·.vestTokenCount)
  let marvkPoints := calculateMarvkPoints marvkCardMinted marvkLockCount marvkVestCount
  let nadoTotalDeposits := jfield nadoData (·.totalDeposits)
  let nadoTotalVolume := jfield nadoData (·.nadoVolumeUSD)
  let nadoPoints := calculateNadoPoints nadoTotalDeposits nadoTotalVolume
  let copinkSubaccounts := jfield copinkData (·.subaccountsFound)
  let copinkVolume := jfield copinkData (·.totalVolume)
  let copinkPoints := calculateCopinkPoints copinkSubaccounts copinkVolume
  let totalPoints :=
    nftPoints + tokenPoints + memePoints + agePoints + txPoints +
    bridgeInPoints + bridgeOutPoints + gmPoints + inkyPumpPoints + tydroPoints +
    swapPoints + shelliesPoints + znsPoints + nft2mePoints + nftTradingPoints +
    marvkPoints + nadoPoints + copinkPoints
  let rank := getRankForPoints ranks (totalPoints : ℤ)
  { wallet_address := wallet
    total_points := totalPoints
    rank := rank.map (fun r => ⟨r.name, r.color, r.logo_url⟩)
    breakdown :=
      { native :=
          [ ("nft_collections", ⟨supportedNftCount walletStats, nftPoints⟩)
          , ("erc20_tokens", ⟨totalTokenValue, tokenPoints⟩)
          , ("meme_coins", ⟨.num (memeTokenCount memeTokens walletStats), memePoints⟩)
          , ("wallet_age", ⟨ageDays, agePoints⟩)
          , ("total_tx", ⟨totalTxns, txPoints⟩) ]
        platforms :=
          [ ("bridge_in",
              ⟨jfield bridgeData (·.bridgedInCount), bridgeInUsd, bridgeInPoints⟩)
          , ("bridge_out",
              ⟨jfield bridgeData (·.bridgedOutCount), bridgeOutUsd, bridgeOutPoints⟩)
          , ("gm", ⟨gmCount, .num 0, gmPoints⟩)
          , ("inkypump",
              ⟨(inkyPumpCreatedCount.add (jfield inkyPumpBuy (·.total_count))).add
                  (jfield inkyPumpSell (·.total_count)),
                inkyPumpTotalUsd, inkyPumpPoints⟩)
          , ("tydro",
              ⟨(jfield tydroData (·.depositCount)).add (jfield tydroData (·.borrowCount)),
                tydroSupplyUsd.add tydroBorrowUsd, tydroPoints⟩)
          , ("swap", ⟨jfield swapData (·.txCount), swapUsd, swapPoints⟩)
          , ("shellies",
              ⟨(shelliesPlayedCount.add shelliesStakedCount).add shelliesRafflesCount,
                .num 0, shelliesPoints⟩)
          , ("zns", ⟨jfield znsData (·.total_count), .num 0, znsPoints⟩)
          , ("nft2me", ⟨jfield nft2meData (·.totalTransactions), .num 0, nft2mePoints⟩)
          , ("nft_trading", ⟨jfield nftTradingData (·.total_count), .num 0, nftTradingPoints⟩)
          , ("marvk", ⟨jfield marvkData (·.totalTransactions), .num 0, marvkPoints⟩)
          , ("nado", ⟨jfield nadoData (·.totalTransactions), nadoTotalVolume, nadoPoints⟩)
          , ("copink", ⟨copinkSubaccounts, copinkVolume, copinkPoints⟩) ] }
    last_updated := now }

/-- Outcome of one `fetch` plus its decode step. -/
inductive FetchResult (α : Type) where
  | transportError : FetchResult α
  | notOk : FetchResult α
  | malformed : FetchResult α
  | ok : α → FetchResult α
deriving DecidableEq

/-- A source outcome whose exception reaches the service's `catch` block:
a rejected `fetch` (rejects the `Promise.all`) or a 2xx response whose
`res.json()` rejects. -/
def FetchResult.fatal {α : Type} : FetchResult α → Bool
  | .transportError => true
  | .malformed => true
  | _ => false

/-- The decoded value of `res.ok ? await res.json() : null` for a source
that raised no exception. -/
def FetchResult.payload {α : Type} : FetchResult α → Option α
  | .ok p => some p
  | _ => none

/-- The seventeen concurrently fetched sources (source lines 400–436). -/
structure Inputs where
  walletStats : FetchResult WalletStats
  bridge : FetchResult BridgeResponse
  swap : FetchResult SwapResponse
  tydro : FetchResult TydroResponse
  gm : FetchResult CountResponse
  inkyPumpCreated : FetchResult CountResponse
  inkyPumpBuy : FetchResult CountResponse
  inkyPumpSell : FetchResult CountResponse
  shelliesRaffles : FetchResult CountResponse
  shelliesPayToPlay : FetchResult CountResponse
  shelliesStaking : FetchResult CountResponse
  zns : FetchResult ZnsResponse
  nft2me : FetchResult Nft2meResponse
  nftTrading : FetchResult NftTradingResponse
  marvk : FetchResult MarvkResponse
  nado : FetchResult NadoResponse
  copink : FetchResult CopinkResponse

/-- Whether any of the seventeen sources raised an exception that reaches
the service's `catch` block (which rethrows). -/
def anyFatal (i : Inputs) : Bool :=
  i.walletStats.fatal || i.bridge.fatal || i.swap.fatal || i.tydro.fatal ||
  i.gm.fatal || i.inkyPumpCreated.fatal || i.inkyPumpBuy.fatal ||
  i.inkyPumpSell.fatal || i.shelliesRaffles.fatal || i.shelliesPayToPlay.fatal ||
  i.shelliesStaking.fatal || i.zns.fatal || i.nft2me.fatal ||
  i.nftTrading.fatal || i.marvk.fatal || i.nado.fatal || i.copink.fatal

/-- `calculateWalletScore` (source lines 388–631).  A rejected fetch or a
rejected `res.json()` is rethrown by the `catch` block; a decoded-to-null
primary wallet-stats source raises `'Failed to fetch wallet stats'`;
otherwise the success path (`computeScore`) runs. -/
def calculateWalletScore (walletAddress : String) (i : Inputs)
    (memeTokens : List String) (ranks : List Rank) (now : ℤ) :
    Except String WalletScoreResponse :=
  if anyFatal i then .error "fetch failed"
  else
    match i.walletStats.payload with
    | none => .error "Failed to fetch wallet stats"
    | some ws =>
      .ok (computeScore walletAddress ws i.bridge.payload i.swap.payload
        i.tydro.payload i.gm.payload i.inkyPumpCreated.payload
        i.inkyPumpBuy.payload i.inkyPumpSell.payload i.shelliesRaffles.payload
        i.shelliesPayToPlay.payload i.shelliesStaking.payload i.zns.payload
        i.nft2me.payload i.nftTrading.payload i.marvk.payload i.nado.payload
        i.copink.payload memeTokens ranks now)

/-! ## Derived notions used by the verified properties -/

/-- Sum of the `points` fields of a native breakdown. -/
def sumNativePoints (entries : List (String × NativeEntry)) : ℕ :=
  (entries.map (fun e => e.2.points)).sum

/-- Sum of the `points` fields of a platform breakdown. -/
def sumPlatformPoints (entries : List (String × PlatformEntry)) : ℕ :=
  (entries.map (fun e => e.2.points)).sum

/-- A decoded wallet-stats payload with every optional field absent. -/
def emptyWalletStats : WalletStats := ⟨none, none, none, none, none⟩

/-- Every source answers non-2xx, including the primary one. -/
def primaryDownInputs : Inputs :=
  ⟨.notOk, .notOk, .notOk, .notOk, .notOk, .notOk, .notOk, .notOk, .notOk,
   .notOk, .notOk, .notOk, .notOk, .notOk, .notOk, .notOk, .notOk⟩

/-- The primary source decodes (to an empty payload); every other source
answers non-2xx. -/
def allDegradedInputs : Inputs :=
  ⟨.ok emptyWalletStats, .notOk, .notOk, .notOk, .notOk, .notOk, .notOk, .notOk,
   .notOk, .notOk, .notOk, .notOk, .notOk, .notOk, .notOk, .notOk, .notOk⟩

/-- The primary source decodes; the bridge fetch rejects at the transport
level; every other source answers non-2xx. -/
def bridgeTransportErrorInputs : Inputs :=
  ⟨.ok emptyWalletStats, .transportError, .notOk, .notOk, .notOk, .notOk, .notOk,
   .notOk, .notOk, .notOk, .notOk, .notOk, .notOk, .notOk, .notOk, .notOk, .notOk⟩

/-- Wallet stats for the spec's worked example: one NFT collection entry
with count 7 and a wallet age of 400 days. -/
def exampleWalletStats : WalletStats :=
  ⟨some [⟨some (.num 7)⟩], none, none, some (.num 400), none⟩

/-- Inputs for the spec's worked example: the primary source carries
`exampleWalletStats`, the bridge source reports $1500 bridged in, and
every other source answers non-2xx. -/
def exampleInputs : Inputs :=
  ⟨.ok exampleWalletStats, .ok ⟨some (.num 1500), none, none, none⟩, .notOk, .notOk,
   .notOk, .notOk, .notOk, .notOk, .notOk, .notOk, .notOk, .notOk, .notOk, .notOk,
   .notOk, .notOk, .notOk⟩

/-! ## Helper lemmas -/

theorem JNum.add_num (a b : ℚ) : (JNum.num a).add (JNum.num b) = .num (a + b) := rfl

theorem jnum_none : jnum none = .num 0 := rfl

theorem jnum_some_num (q : ℚ) : jnum (some (.num q)) = .num q := rfl

theorem jfield_none {α : Type} (f : α → Option JNum) : jfield (none : Option α) f = .num 0 := rfl

/-- `getRankForPoints` is exactly "first matching rank in list order". -/
theorem getRankForPoints_eq_find (l : List Rank) (p : ℤ) :
    getRankForPoints l p = l.find? (rankContains p) := by
  induction l with
  | nil => rfl
  | cons r rs ih =>
    by_cases h : rankContains p r
    · simp [getRankForPoints, List.find?, h]
    · simp only [Bool.not_eq_true] at h
      simp [getRankForPoints, List.find?, h, ih]

/-! ## Claims -/

/-- C4: for every points value `P` and every rank list sorted by ascending
`min_points`, rank resolution returns the first rank in the list whose
interval `[min_points, max_points]` contains `P` (a null `max_points`
being unbounded above), and returns null — not an error — when no rank's
interval contains `P`. -/
theorem claim_C4 (ranks : List Rank) (p : ℤ)
    (_hsorted : List.Pairwise (fun a b => a.min_points ≤ b.min_points) ranks) :
    getRankForPoints ranks p = ranks.find? (rankContains p) ∧
    (getRankForPoints ranks p = none ↔ ∀ r ∈ ranks, rankContains p r = false) := by
  refine ⟨getRankForPoints_eq_find ranks p, ?_⟩
  rw [getRankForPoints_eq_find, List.find?_eq_none]
  simp

/-- Witness for C4: a concrete sorted two-rank table; 150 points falls in
the second rank's range, 5000 points in no range. -/
theorem claim_C4_witness :
    (getRankForPoints
        [ ⟨1, "Bronze", 0, some 99, none, none, none, 1, true⟩
        , ⟨2, "Silver", 100, some 999, none, none, none, 2, true⟩ ] 150 =
      [ ⟨1, "Bronze", 0, some 99, none, none, none, 1, true⟩
      , (⟨2, "Silver", 100, some 999, none, none, none, 2, true⟩ : Rank) ].find?
        (rankContains 150) ∧
      (getRankForPoints
          [ ⟨1, "Bronze", 0, some 99, none, none, none, 1, true⟩
          , ⟨2, "Silver", 100, some 999, none, none, none, 2, true⟩ ] 150 = none ↔
        ∀ r ∈ [ ⟨1, "Bronze", 0, some 99, none, none, none, 1, true⟩
              , (⟨2, "Silver", 100, some 999, none, none, none, 2, true⟩ : Rank) ],
          rankContains 150 r = false)) :=
  claim_C4 _ 150 (by decide)

/-- C5: on backing-store failure the two registry caches degrade
asymmetrically: a rank-table refresh failure produces an empty rank list
(so rank resolution yields null) and no error, while a meme-token refresh
failure produces the fixed built-in list of six hardcoded addresses — a
non-empty set — silently. -/
theorem claim_C5 (now p : ℤ) :
    getCachedRanks none now (.error ()) = ([], none, true) ∧
    getRankForPoints [] p = none ∧
    getMemeTokenAddresses none now (.error ()) = (FALLBACK_MEME_ADDRESSES, none, true) ∧
    FALLBACK_MEME_ADDRESSES.length = 6 ∧
    FALLBACK_MEME_ADDRESSES ≠ [] :=
  ⟨rfl, rfl, rfl, rfl, by decide⟩

/-- C8: a rank-table read strictly less than 60 seconds (60000 ms) after
the last refresh returns the cached payload without querying the store; a
read 60 seconds or more after queries the store; the meme-token cache
behaves the same with a 300-second TTL. -/
theorem claim_C8 (c : RanksCacheState) (m : MemeTokensCacheState) (now : ℤ)
    (store : Except Unit (List Rank)) (mstore : Except Unit (List String)) :
    (now - c.timestamp < 60000 →
      getCachedRanks (some c) now store = (c.ranks, some c, false)) ∧
    (60000 ≤ now - c.timestamp →
      (getCachedRanks (some c) now store).2.2 = true) ∧
    (now - m.timestamp < 300000 →
      getMemeTokenAddresses (some m) now mstore = (m.addresses, some m, false)) ∧
    (300000 ≤ now - m.timestamp →
      (getMemeTokenAddresses (some m) now mstore).2.2 = true) := by
  refine ⟨?_, ?_, ?_, ?_⟩
  · intro h
    simp [getCachedRanks, RANKS_CACHE_TTL, h]
  · intro h
    have h2 : ¬ (now - c.timestamp < RANKS_CACHE_TTL) := by
      simp only [RANKS_CACHE_TTL]; omega
    simp only [getCachedRanks, if_neg h2]
    cases store <;> simp
  · intro h
    simp [getMemeTokenAddresses, MEME_TOKENS_CACHE_TTL, h]
  · intro h
    have h2 : ¬ (now - m.timestamp < MEME_TOKENS_CACHE_TTL) := by
      simp only [MEME_TOKENS_CACHE_TTL]; omega
    simp only [getMemeTokenAddresses, if_neg h2]
    cases mstore <;> simp

/-- Witness for C8: a cache stamped at time 0 is reused at 59 s and
refreshed at 61 s; the meme cache is reused at 299 s and refreshed at
301 s. -/
theorem claim_C8_witness :
    (getCachedRanks (some ⟨[], 0⟩) 59000 (.error ()) = ([], some ⟨[], 0⟩, false)) ∧
    ((getCachedRanks (some ⟨[], 0⟩) 61000 (.error ())).2.2 = true) ∧
    (getMemeTokenAddresses (some ⟨[], 0⟩) 299000 (.error ()) = ([], some ⟨[], 0⟩, false)) ∧
    ((getMemeTokenAddresses (some ⟨[], 0⟩) 301000 (.error ())).2.2 = true) :=
  ⟨(claim_C8 ⟨[], 0⟩ ⟨[], 0⟩ 59000 (.error ()) (.error ())).1 (by decide),
   (claim_C8 ⟨[], 0⟩ ⟨[], 0⟩ 61000 (.error ()) (.error ())).2.1 (by decide),
   (claim_C8 ⟨[], 0⟩ ⟨[], 0⟩ 299000 (.error ()) (.error ())).2.2.1 (by decide),
   (claim_C8 ⟨[], 0⟩ ⟨[], 0⟩ 301000 (.error ()) (.error ())).2.2.2 (by decide)⟩

/-- C7: meme-token classification is case-insensitive: an address present
in the store rows in any letter case is classified as a meme token by a
membership query in any letter case (the refresh path lowercases every
stored address, and `isMemeToken` lowercases the queried address). -/
theorem claim_C7 (storeAddresses : List String) (inserted queried : String) (now : ℤ)
    (hmem : inserted ∈ storeAddresses)
    (hcase : toLowerCase inserted = toLowerCase queried) :
    isMemeToken (getMemeTokenAddresses none now (.ok storeAddresses)).1 queried = true := by
  show (storeAddresses.map toLowerCase).contains (toLowerCase queried) = true
  have : toLowerCase queried ∈ storeAddresses.map toLowerCase :=
    List.mem_map.mpr ⟨inserted, hmem, hcase⟩
  exact List.elem_iff.mpr this

/-- Witness for C7: the address `0xAbC` is stored; querying `0xaBc`
classifies it as a meme token. -/
theorem claim_C7_witness :
    "0xAbC" ∈ ["0xAbC"] ∧
    toLowerCase "0xAbC" = toLowerCase "0xaBc" ∧
    isMemeToken (getMemeTokenAddresses none 0 (.ok ["0xAbC"])).1 "0xaBc" = true :=
  ⟨by decide, by decide, claim_C7 ["0xAbC"] "0xAbC" "0xaBc" 0 (by decide) (by decide)⟩

/-- The grand total computed by the success path equals the sum of every
breakdown entry's points (stated for arbitrary decoded payloads). -/
theorem computeScore_total_eq_sum (walletAddress : String) (walletStats : WalletStats)
    (bridgeData : Option BridgeResponse) (swapData : Option SwapResponse)
    (tydroData : Option TydroResponse) (gmData : Option CountResponse)
    (inkyPumpCreated inkyPumpBuy inkyPumpSell : Option CountResponse)
    (shelliesRaffles shelliesPayToPlay shelliesStaking : Option CountResponse)
    (znsData : Option ZnsResponse) (nft2meData : Option Nft2meResponse)
    (nftTradingData : Option NftTradingResponse) (marvkData : Option MarvkResponse)
    (nadoData : Option NadoResponse) (copinkData : Option CopinkResponse)
    (memeTokens : List String) (ranks : List Rank) (now : ℤ) :
    (computeScore walletAddress walletStats bridgeData swapData tydroData gmData
      inkyPumpCreated inkyPumpBuy inkyPumpSell shelliesRaffles shelliesPayToPlay
      shelliesStaking znsData nft2meData nftTradingData marvkData nadoData
      copinkData memeTokens ranks now).total_points =
      sumNativePoints (computeScore walletAddress walletStats bridgeData swapData tydroData gmData
        inkyPumpCreated inkyPumpBuy inkyPumpSell shelliesRaffles shelliesPayToPlay
        shelliesStaking znsData nft2meData nftTradingData marvkData nadoData
        copinkData memeTokens ranks now).breakdown.native +
      sumPlatformPoints (computeScore walletAddress walletStats bridgeData swapData tydroData gmData
        inkyPumpCreated inkyPumpBuy inkyPumpSell shelliesRaffles shelliesPayToPlay
        shelliesStaking znsData nft2meData nftTradingData marvkData nadoData
        copinkData memeTokens ranks now).breakdown.platforms := by
  have hn : sumNativePoints (computeScore walletAddress walletStats bridgeData swapData tydroData gmData
        inkyPumpCreated inkyPumpBuy inkyPumpSell shelliesRaffles shelliesPayToPlay
        shelliesStaking znsData nft2meData nftTradingData marvkData nadoData
        copinkData memeTokens ranks now).breakdown.native =
      calculateNftCollectionsPoints (supportedNftCount walletStats) +
      (calculateTokenHoldingsPoints memeTokens (allHoldings walletStats) +
      (calculateMemeCoinsPoints memeTokens (walletStats.tokenHoldings.getD []) +
      (calculateWalletAgePoints (jnum walletStats.ageDays) +
      calculateTotalTxPoints (jnum walletStats.totalTxns)))) := rfl
  have hp : sumPlatformPoints (computeScore walletAddress walletStats bridgeData swapData tydroData gmData
        inkyPumpCreated inkyPumpBuy inkyPumpSell shelliesRaffles shelliesPayToPlay
        shelliesStaking znsData nft2meData nftTradingData marvkData nadoData
        copinkData memeTokens ranks now).breakdown.platforms =
      calculateBridgeInPoints (jfield bridgeData (fun x => x.bridgedInUsd)) +
      (calculateBridgeOutPoints (jfield bridgeData (fun x => x.bridgedOutUsd)) +
      (calculateGmPoints (jfield gmData (fun x => x.total_count)) +
      (calculateInkyPumpPoints (jfield inkyPumpCreated (fun x => x.total_count))
          (pfloat inkyPumpBuy (fun x => x.total_value)) (pfloat inkyPumpSell (fun x => x.total_value)) +
      (calculateTydroPoints (jfield tydroData (fun x => x.currentSupplyUsd))
          (jfield tydroData (fun x => x.currentBorrowUsd)) +
      (calculateSwapVolumePoints (jfield swapData (fun x => x.totalUsd)) +
      (calculateShelliesPoints (jfield shelliesPayToPlay (fun x => x.total_count))
          (jfield shelliesStaking (fun x => x.total_count))
          (jfield shelliesRaffles (fun x => x.total_count)) +
      (calculateZnsPoints (jfield znsData (fun x => x.deploy_count))
          (jfield znsData (fun x => x.say_gm_count))
          (jfield znsData (fun x => x.register_domain_count)) +
      (calculateNft2mePoints (jfield nft2meData (fun x => x.collectionsCreated))
          (jfield nft2meData (fun x => x.nftsMinted)) +
      (calculateNftTradingPoints
          (contractCount ((nftTradingData.bind (fun x => x.by_contract)).getD []) NFT_CONTRACTS_squid)
          (contractCount ((nftTradingData.bind (fun x => x.by_contract)).getD []) NFT_CONTRACTS_netProtocol)
          (contractCount ((nftTradingData.bind (fun x => x.by_contract)).getD []) NFT_CONTRACTS_mintique) +
      (calculateMarvkPoints (jfield marvkData (fun x => x.cardMintedCount))
          (jfield marvkData (fun x => x.lockTokenCount))
          (jfield marvkData (fun x => x.vestTokenCount)) +
      (calculateNadoPoints (jfield nadoData (fun x => x.totalDeposits))
          (jfield nadoData (fun x => x.nadoVolumeUSD)) +
      calculateCopinkPoints (jfield copinkData (fun x => x.subaccountsFound))
          (jfield copinkData (fun x => x.totalVolume))))))))))))) := rfl
  have ht : (computeScore walletAddress walletStats bridgeData swapData tydroData gmData
        inkyPumpCreated inkyPumpBuy inkyPumpSell shelliesRaffles shelliesPayToPlay
        shelliesStaking znsData nft2meData nftTradingData marvkData nadoData
        copinkData memeTokens ranks now).total_points =
      calculateNftCollectionsPoints (supportedNftCount walletStats) +
      calculateTokenHoldingsPoints memeTokens (allHoldings walletStats) +
      calculateMemeCoinsPoints memeTokens (walletStats.tokenHoldings.getD []) +
      calculateWalletAgePoints (jnum walletStats.ageDays) +
      calculateTotalTxPoints (jnum walletStats.totalTxns) +
      calculateBridgeInPoints (jfield bridgeData (fun x => x.bridgedInUsd)) +
      calculateBridgeOutPoints (jfield bridgeData (fun x => x.bridgedOutUsd)) +
      calculateGmPoints (jfield gmData (fun x => x.total_count)) +
      calculateInkyPumpPoints (jfield inkyPumpCreated (fun x => x.total_count))
          (pfloat inkyPumpBuy (fun x => x.total_value)) (pfloat inkyPumpSell (fun x => x.total_value)) +
      calculateTydroPoints (jfield tydroData (fun x => x.currentSupplyUsd))
          (jfield tydroData (fun x => x.currentBorrowUsd)) +
      calculateSwapVolumePoints (jfield swapData (fun x => x.totalUsd)) +
      calculateShelliesPoints (jfield shelliesPayToPlay (fun x => x.total_count))
          (jfield shelliesStaking (fun x => x.total_count))
          (jfield shelliesRaffles (fun x => x.total_count)) +
      calculateZnsPoints (jfield znsData (fun x => x.deploy_count))
          (jfield znsData (fun x => x.say_gm_count))
          (jfield znsData (fun x => x.register_domain_count)) +
      calculateNft2mePoints (jfield nft2meData (fun x => x.collectionsCreated))
          (jfield nft2meData (fun x => x.nftsMinted)) +
      calculateNftTradingPoints
          (contractCount ((nftTradingData.bind (fun x => x.by_contract)).getD []) NFT_CONTRACTS_squid)
          (contractCount ((nftTradingData.bind (fun x => x.by_contract)).getD []) NFT_CONTRACTS_netProtocol)
          (contractCount ((nftTradingData.bind (fun x => x.by_contract)).getD []) NFT_CONTRACTS_mintique) +
      calculateMarvkPoints (jfield marvkData (fun x => x.cardMintedCount))
          (jfield marvkData (fun x => x.lockTokenCount))
          (jfield marvkData (fun x => x.vestTokenCount)) +
      calculateNadoPoints (jfield nadoData (fun x => x.totalDeposits))
          (jfield nadoData (fun x => x.nadoVolumeUSD)) +
      calculateCopinkPoints (jfield copinkData (fun x => x.subaccountsFound))
          (jfield copinkData (fun x => x.totalVolume)) := rfl
  rw [ht, hn, hp]
  omega

/-- C10: every successfully returned `WalletScoreResponse` has
`total_points` equal to the sum of the points over all entries of
`breakdown.native` and `breakdown.platforms`, and the breakdown holds
exactly the fixed native keys (`nft_collections`, `erc20_tokens`,
`meme_coins`, `wallet_age`, `total_tx`) and platform keys (`bridge_in`,
`bridge_out`, `gm`, `inkypump`, `tydro`, `swap`, `shellies`, `zns`,
`nft2me`, `nft_trading`, `marvk`, `nado`, `copink`), in that order,
regardless of which non-primary sources were degraded. -/
theorem claim_C10 (walletAddress : String) (i : Inputs) (memeTokens : List String)
    (ranks : List Rank) (now : ℤ) (resp : WalletScoreResponse)
    (h : calculateWalletScore walletAddress i memeTokens ranks now = .ok resp) :
    resp.total_points =
      sumNativePoints resp.breakdown.native + sumPlatformPoints resp.breakdown.platforms ∧
    resp.breakdown.native.map Prod.fst =
      ["nft_collections", "erc20_tokens", "meme_coins", "wallet_age", "total_tx"] ∧
    resp.breakdown.platforms.map Prod.fst =
      ["bridge_in", "bridge_out", "gm", "inkypump", "tydro", "swap", "shellies",
       "zns", "nft2me", "nft_trading", "marvk", "nado", "copink"] := by
  unfold calculateWalletScore at h
  split at h
  · exact Except.noConfusion h
  · split at h
    · exact Except.noConfusion h
    · have he := Except.ok.inj h
      subst he
      exact ⟨computeScore_total_eq_sum _ _ _ _ _ _ _ _ _ _ _ _ _ _ _ _ _ _ _ _ _,
        rfl, rfl⟩

/-- Witness for C10: the response computed when every non-primary source
is degraded and the primary payload is empty. -/
theorem claim_C10_witness :
    (computeScore "0xAb" emptyWalletStats none none none none none none none none
        none none none none none none none none [] [] 0).total_points =
      sumNativePoints (computeScore "0xAb" emptyWalletStats none none none none none
        none none none none none none none none none none none [] [] 0).breakdown.native +
      sumPlatformPoints (computeScore "0xAb" emptyWalletStats none none none none none
        none none none none none none none none none none none [] [] 0).breakdown.platforms ∧
    (computeScore "0xAb" emptyWalletStats none none none none none none none none
        none none none none none none none none [] [] 0).breakdown.native.map Prod.fst =
      ["nft_collections", "erc20_tokens", "meme_coins", "wallet_age", "total_tx"] ∧
    (computeScore "0xAb" emptyWalletStats none none none none none none none none
        none none none none none none none none [] [] 0).breakdown.platforms.map Prod.fst =
      ["bridge_in", "bridge_out", "gm", "inkypump", "tydro", "swap", "shellies",
       "zns", "nft2me", "nft_trading", "marvk", "nado", "copink"] :=
  claim_C10 "0xAb" allDegradedInputs [] [] 0 _ rfl

/-- C3: when the primary wallet-stats source does not decode to a payload
(unreachable transport, non-2xx status, or unusable body),
`calculateWalletScore` surfaces an error to the caller and produces no
partial response. -/
theorem claim_C3 (walletAddress : String) (i : Inputs) (memeTokens : List String)
    (ranks : List Rank) (now : ℤ) (h : ∀ ws, i.walletStats ≠ .ok ws) :
    ∃ e, calculateWalletScore walletAddress i memeTokens ranks now = .error e := by
  unfold calculateWalletScore
  by_cases hf : anyFatal i = true
  · rw [if_pos hf]
    exact ⟨_, rfl⟩
  · rw [if_neg hf]
    have hp : i.walletStats.payload = none := by
      cases hws : i.walletStats with
      | ok ws => exact absurd hws (h ws)
      | transportError => rfl
      | notOk => rfl
      | malformed => rfl
    rw [hp]
    exact ⟨_, rfl⟩

/-- Witness for C3: the primary source answering HTTP 500 makes the whole
call fail. -/
theorem claim_C3_witness :
    (∀ ws, primaryDownInputs.walletStats ≠ FetchResult.ok ws) ∧
    ∃ e, calculateWalletScore "0xAb" primaryDownInputs [] [] 0 = .error e :=
  ⟨fun _ h => FetchResult.noConfusion h,
   claim_C3 "0xAb" primaryDownInputs [] [] 0 (fun _ h => FetchResult.noConfusion h)⟩

/-- Counterexample to C9 as stated: the three example tier results are
250, 500 and 250 points, which sum to 1000, not 950. -/
theorem claim_C9_counterexample :
    calculateNftCollectionsPoints (.num 7) = 250 ∧
    calculateWalletAgePoints (.num 400) = 500 ∧
    calculateBridgeInPoints (.num 1500) = 250 ∧
    calculateNftCollectionsPoints (.num 7) + calculateWalletAgePoints (.num 400) +
      calculateBridgeInPoints (.num 1500) = 1000 ∧
    calculateNftCollectionsPoints (.num 7) + calculateWalletAgePoints (.num 400) +
      calculateBridgeInPoints (.num 1500) ≠ 950 := by
  refine ⟨by decide, by decide, by decide, by decide, by decide⟩

/-- C9 (amended): an NFT-collections count of 7 resolves to 250 points, a
wallet age of 400 days to 500 points, and a bridge-in volume of $1500 to
250 points; each is recorded under its own breakdown key with its raw
value preserved, and together the three contribute exactly 1000 points
(not 950 as the spec computes). -/
theorem claim_C9 :
    ((calculateWalletScore "0xab" exampleInputs [] [] 0).toOption.bind
      (fun r => r.breakdown.native.lookup "nft_collections")) = some ⟨.num 7, 250⟩ ∧
    ((calculateWalletScore "0xab" exampleInputs [] [] 0).toOption.bind
      (fun r => r.breakdown.native.lookup "wallet_age")) = some ⟨.num 400, 500⟩ ∧
    ((calculateWalletScore "0xab" exampleInputs [] [] 0).toOption.bind
      (fun r => r.breakdown.platforms.lookup "bridge_in")) = some ⟨.num 0, .num 1500, 250⟩ ∧
    calculateNftCollectionsPoints (.num 7) + calculateWalletAgePoints (.num 400) +
      calculateBridgeInPoints (.num 1500) = 1000 := by
  refine ⟨?_, rfl, rfl, by decide⟩
  have h1 : ((calculateWalletScore "0xab" exampleInputs [] [] 0).toOption.bind
      (fun r => r.breakdown.native.lookup "nft_collections")) =
      some ⟨supportedNftCount exampleWalletStats,
        calculateNftCollectionsPoints (supportedNftCount exampleWalletStats)⟩ := rfl
  have h2 : supportedNftCount exampleWalletStats = .num (0 + 7) := rfl
  have h3 : supportedNftCount exampleWalletStats = .num 7 := by rw [h2]; norm_num
  rw [h1, h3]
  norm_num [calculateNftCollectionsPoints, JNum.geC]

/-- When all three inkypump sources decode to null, the inkypump entry is
all zeros. -/
theorem lookup_inkypump_degraded (walletAddress : String) (walletStats : WalletStats)
    (bridgeData : Option BridgeResponse) (swapData : Option SwapResponse)
    (tydroData : Option TydroResponse) (gmData : Option CountResponse)
    (shelliesRaffles shelliesPayToPlay shelliesStaking : Option CountResponse)
    (znsData : Option ZnsResponse) (nft2meData : Option Nft2meResponse)
    (nftTradingData : Option NftTradingResponse) (marvkData : Option MarvkResponse)
    (nadoData : Option NadoResponse) (copinkData : Option CopinkResponse)
    (memeTokens : List String) (ranks : List Rank) (now : ℤ) :
    (computeScore walletAddress walletStats bridgeData swapData tydroData gmData
      none none none shelliesRaffles shelliesPayToPlay shelliesStaking znsData
      nft2meData nftTradingData marvkData nadoData copinkData memeTokens ranks
      now).breakdown.platforms.lookup "inkypump" = some ⟨.num 0, .num 0, 0⟩ := by
  have h1 : (computeScore walletAddress walletStats bridgeData swapData tydroData gmData
      none none none shelliesRaffles shelliesPayToPlay shelliesStaking znsData
      nft2meData nftTradingData marvkData nadoData copinkData memeTokens ranks
      now).breakdown.platforms.lookup "inkypump" =
      some ⟨((JNum.num 0).add (JNum.num 0)).add (JNum.num 0), (JNum.num 0).add (JNum.num 0),
        calculateInkyPumpPoints (JNum.num 0) (JNum.num 0) (JNum.num 0)⟩ := rfl
  rw [h1]
  norm_num [JNum.add, calculateInkyPumpPoints, JNum.geC]

/-- When all three shellies sources decode to null, the shellies entry is
all zeros. -/
theorem lookup_shellies_degraded (walletAddress : String) (walletStats : WalletStats)
    (bridgeData : Option BridgeResponse) (swapData : Option SwapResponse)
    (tydroData : Option TydroResponse) (gmData : Option CountResponse)
    (inkyPumpCreated inkyPumpBuy inkyPumpSell : Option CountResponse)
    (znsData : Option ZnsResponse) (nft2meData : Option Nft2meResponse)
    (nftTradingData : Option NftTradingResponse) (marvkData : Option MarvkResponse)
    (nadoData : Option NadoResponse) (copinkData : Option CopinkResponse)
    (memeTokens : List String) (ranks : List Rank) (now : ℤ) :
    (computeScore walletAddress walletStats bridgeData swapData tydroData gmData
      inkyPumpCreated inkyPumpBuy inkyPumpSell none none none znsData
      nft2meData nftTradingData marvkData nadoData copinkData memeTokens ranks
      now).breakdown.platforms.lookup "shellies" = some ⟨.num 0, .num 0, 0⟩ := by
  have h1 : (computeScore walletAddress walletStats bridgeData swapData tydroData gmData
      inkyPumpCreated inkyPumpBuy inkyPumpSell none none none znsData
      nft2meData nftTradingData marvkData nadoData copinkData memeTokens ranks
      now).breakdown.platforms.lookup "shellies" =
      some ⟨((JNum.num 0).add (JNum.num 0)).add (JNum.num 0), .num 0,
        calculateShelliesPoints (JNum.num 0) (JNum.num 0) (JNum.num 0)⟩ := rfl
  rw [h1]
  norm_num [JNum.add, calculateShelliesPoints, JNum.geC]

/-- When the tydro source decodes to null, the tydro entry is all zeros. -/
theorem lookup_tydro_degraded (walletAddress : String) (walletStats : WalletStats)
    (bridgeData : Option BridgeResponse) (swapData : Option SwapResponse)
    (gmData : Option CountResponse)
    (inkyPumpCreated inkyPumpBuy inkyPumpSell : Option CountResponse)
    (shelliesRaffles shelliesPayToPlay shelliesStaking : Option CountResponse)
    (znsData : Option ZnsResponse) (nft2meData : Option Nft2meResponse)
    (nftTradingData : Option NftTradingResponse) (marvkData : Option MarvkResponse)
    (nadoData : Option NadoResponse) (copinkData : Option CopinkResponse)
    (memeTokens : List String) (ranks : List Rank) (now : ℤ) :
    (computeScore walletAddress walletStats bridgeData swapData none gmData
      inkyPumpCreated inkyPumpBuy inkyPumpSell shelliesRaffles shelliesPayToPlay
      shelliesStaking znsData nft2meData nftTradingData marvkData nadoData
      copinkData memeTokens ranks now).breakdown.platforms.lookup "tydro" =
      some ⟨.num 0, .num 0, 0⟩ := by
  have h1 : (computeScore walletAddress walletStats bridgeData swapData none gmData
      inkyPumpCreated inkyPumpBuy inkyPumpSell shelliesRaffles shelliesPayToPlay
      shelliesStaking znsData nft2meData nftTradingData marvkData nadoData
      copinkData memeTokens ranks now).breakdown.platforms.lookup "tydro" =
      some ⟨(JNum.num 0).add (JNum.num 0), (JNum.num 0).add (JNum.num 0),
        calculateTydroPoints (JNum.num 0) (JNum.num 0)⟩ := rfl
  rw [h1]
  norm_num [JNum.add, calculateTydroPoints, getTydroSupplyTierPoints,
    getTydroBorrowTierPoints, JNum.geC]

/-- When the NFT-trading source decodes to null, the nft_trading entry is
all zeros. -/
theorem lookup_nftTrading_degraded (walletAddress : String) (walletStats : WalletStats)
    (bridgeData : Option BridgeResponse) (swapData : Option SwapResponse)
    (tydroData : Option TydroResponse) (gmData : Option CountResponse)
    (inkyPumpCreated inkyPumpBuy inkyPumpSell : Option CountResponse)
    (shelliesRaffles shelliesPayToPlay shelliesStaking : Option CountResponse)
    (znsData : Option ZnsResponse) (nft2meData : Option Nft2meResponse)
    (marvkData : Option MarvkResponse)
    (nadoData : Option NadoResponse) (copinkData : Option CopinkResponse)
    (memeTokens : List String) (ranks : List Rank) (now : ℤ) :
    (computeScore walletAddress walletStats bridgeData swapData tydroData gmData
      inkyPumpCreated inkyPumpBuy inkyPumpSell shelliesRaffles shelliesPayToPlay
      shelliesStaking znsData nft2meData none marvkData nadoData
      copinkData memeTokens ranks now).breakdown.platforms.lookup "nft_trading" =
      some ⟨.num 0, .num 0, 0⟩ := by
  have h1 : (computeScore walletAddress walletStats bridgeData swapData tydroData gmData
      inkyPumpCreated inkyPumpBuy inkyPumpSell shelliesRaffles shelliesPayToPlay
      shelliesStaking znsData nft2meData none marvkData nadoData
      copinkData memeTokens ranks now).breakdown.platforms.lookup "nft_trading" =
      some ⟨.num 0, .num 0,
        calculateNftTradingPoints (JNum.num 0) (JNum.num 0) (JNum.num 0)⟩ := rfl
  rw [h1]
  norm_num [calculateNftTradingPoints, JNum.add, JNum.geC, JNum.gtC]

/-- Counterexample to C1 as stated: a transport failure of the bridge
source (a non-primary source) makes the whole call fail with an error —
it is not absorbed — and a degraded (non-2xx) nado source is recorded
with 50 points, not 0. -/
theorem claim_C1_counterexample :
    calculateWalletScore "0xab" bridgeTransportErrorInputs [] [] 0 = .error "fetch failed" ∧
    ((calculateWalletScore "0xab" allDegradedInputs [] [] 0).toOption.bind
      (fun r => r.breakdown.platforms.lookup "nado")) = some ⟨.num 0, .num 0, 50⟩ ∧
    ((calculateWalletScore "0xab" allDegradedInputs [] [] 0).toOption.bind
      (fun r => r.breakdown.platforms.lookup "nado")) ≠ some ⟨.num 0, .num 0, 0⟩ :=
  ⟨rfl, rfl, by decide⟩

/-- C1 (amended): only a non-2xx status degrades a non-primary source: in
that case `calculateWalletScore` still returns a complete response and
the degraded source's breakdown entry carries value 0 — and points 0 for
every source except nado, whose tier table awards 50 points at zero
volume.  A transport failure or malformed JSON body of any source instead
surfaces an error to the caller. -/
theorem claim_C1 (walletAddress : String) (i : Inputs) (ws : WalletStats)
    (memeTokens : List String) (ranks : List Rank) (now : ℤ)
    (hok : i.walletStats = .ok ws) (hnf : anyFatal i = false) :
    (∀ j : Inputs, anyFatal j = true →
      calculateWalletScore walletAddress j memeTokens ranks now = .error "fetch failed") ∧
    ∃ resp, calculateWalletScore walletAddress i memeTokens ranks now = .ok resp ∧
      (i.bridge = .notOk →
        resp.breakdown.platforms.lookup "bridge_in" = some ⟨.num 0, .num 0, 0⟩ ∧
        resp.breakdown.platforms.lookup "bridge_out" = some ⟨.num 0, .num 0, 0⟩) ∧
      (i.swap = .notOk → resp.breakdown.platforms.lookup "swap" = some ⟨.num 0, .num 0, 0⟩) ∧
      (i.tydro = .notOk → resp.breakdown.platforms.lookup "tydro" = some ⟨.num 0, .num 0, 0⟩) ∧
      (i.gm = .notOk → resp.breakdown.platforms.lookup "gm" = some ⟨.num 0, .num 0, 0⟩) ∧
      (i.inkyPumpCreated = .notOk ∧ i.inkyPumpBuy = .notOk ∧ i.inkyPumpSell = .notOk →
        resp.breakdown.platforms.lookup "inkypump" = some ⟨.num 0, .num 0, 0⟩) ∧
      (i.shelliesRaffles = .notOk ∧ i.shelliesPayToPlay = .notOk ∧ i.shelliesStaking = .notOk →
        resp.breakdown.platforms.lookup "shellies" = some ⟨.num 0, .num 0, 0⟩) ∧
      (i.zns = .notOk → resp.breakdown.platforms.lookup "zns" = some ⟨.num 0, .num 0, 0⟩) ∧
      (i.nft2me = .notOk → resp.breakdown.platforms.lookup "nft2me" = some ⟨.num 0, .num 0, 0⟩) ∧
      (i.nftTrading = .notOk →
        resp.breakdown.platforms.lookup "nft_trading" = some ⟨.num 0, .num 0, 0⟩) ∧
      (i.marvk = .notOk → resp.breakdown.platforms.lookup "marvk" = some ⟨.num 0, .num 0, 0⟩) ∧
      (i.nado = .notOk → resp.breakdown.platforms.lookup "nado" = some ⟨.num 0, .num 0, 50⟩) ∧
      (i.copink = .notOk →
        resp.breakdown.platforms.lookup "copink" = some ⟨.num 0, .num 0, 0⟩) := by
  have hnf2 : ¬ (anyFatal i = true) := by simp [hnf]
  refine ⟨?_, computeScore walletAddress ws i.bridge.payload i.swap.payload i.tydro.payload
    i.gm.payload i.inkyPumpCreated.payload i.inkyPumpBuy.payload i.inkyPumpSell.payload
    i.shelliesRaffles.payload i.shelliesPayToPlay.payload i.shelliesStaking.payload
    i.zns.payload i.nft2me.payload i.nftTrading.payload i.marvk.payload i.nado.payload
    i.copink.payload memeTokens ranks now,
    ?_, ?_, ?_, ?_, ?_, ?_, ?_, ?_, ?_, ?_, ?_, ?_, ?_⟩
  · intro j hj
    unfold calculateWalletScore
    rw [if_pos hj]
  · unfold calculateWalletScore
    rw [if_neg hnf2, hok]
    rfl
  · intro hb; rw [hb]; exact ⟨rfl, rfl⟩
  · intro hs; rw [hs]; rfl
  · intro hty; rw [hty]
    exact lookup_tydro_degraded _ _ _ _ _ _ _ _ _ _ _ _ _ _ _ _ _ _ _ _
  · intro hg; rw [hg]; rfl
  · intro hi
    rw [hi.1, hi.2.1, hi.2.2]
    exact lookup_inkypump_degraded _ _ _ _ _ _ _ _ _ _ _ _ _ _ _ _ _ _
  · intro hsh
    rw [hsh.1, hsh.2.1, hsh.2.2]
    exact lookup_shellies_degraded _ _ _ _ _ _ _ _ _ _ _ _ _ _ _ _ _ _
  · intro hz; rw [hz]; rfl
  · intro hn; rw [hn]; rfl
  · intro hnt; rw [hnt]
    exact lookup_nftTrading_degraded _ _ _ _ _ _ _ _ _ _ _ _ _ _ _ _ _ _ _ _
  · intro hm; rw [hm]; rfl
  · intro hna; rw [hna]; rfl
  · intro hc; rw [hc]; rfl

/-- Witness for C1: with the primary payload decoded and every other
source non-2xx, the call succeeds and the degraded nado entry carries 50
points. -/
theorem claim_C1_witness :
    allDegradedInputs.walletStats = FetchResult.ok emptyWalletStats ∧
    anyFatal allDegradedInputs = false ∧
    ∃ resp, calculateWalletScore "0xab" allDegradedInputs [] [] 0 = .ok resp ∧
      (allDegradedInputs.nado = .notOk →
        resp.breakdown.platforms.lookup "nado" = some ⟨.num 0, .num 0, 50⟩) :=
  ⟨rfl, rfl,
    (claim_C1 "0xab" allDegradedInputs emptyWalletStats [] [] 0 rfl rfl).2.elim
      (fun resp hr => ⟨resp, hr.1, hr.2.2.2.2.2.2.2.2.2.2.2.1⟩)⟩

/-! ## Below-threshold behaviour of the tier resolvers -/

theorem mono_nft (a b : ℚ) (h : a ≤ b) :
    calculateNftCollectionsPoints (.num a) ≤ calculateNftCollectionsPoints (.num b) := by
  simp only [calculateNftCollectionsPoints, JNum.geC, decide_eq_true_eq]
  split_ifs <;> first | omega | linarith

theorem mono_age (a b : ℚ) (h : a ≤ b) :
    calculateWalletAgePoints (.num a) ≤ calculateWalletAgePoints (.num b) := by
  simp only [calculateWalletAgePoints, JNum.leC, decide_eq_true_eq]
  split_ifs <;> first | omega | linarith

theorem mono_tx (a b : ℚ) (h : a ≤ b) :
    calculateTotalTxPoints (.num a) ≤ calculateTotalTxPoints (.num b) := by
  simp only [calculateTotalTxPoints, JNum.leC, decide_eq_true_eq]
  split_ifs <;> first | omega | linarith

theorem mono_bridgeTier (a b : ℚ) (h : a ≤ b) :
    getBridgeVolumeTierPoints (.num a) ≤ getBridgeVolumeTierPoints (.num b) := by
  simp only [getBridgeVolumeTierPoints, JNum.geC, decide_eq_true_eq]
  split_ifs <;> first | omega | linarith

theorem mono_gm (a b : ℚ) (h : a ≤ b) :
    calculateGmPoints (.num a) ≤ calculateGmPoints (.num b) := by
  simp only [calculateGmPoints, JNum.geC, decide_eq_true_eq]
  split_ifs <;> first | omega | linarith

theorem mono_swap (a b : ℚ) (h : a ≤ b) :
    calculateSwapVolumePoints (.num a) ≤ calculateSwapVolumePoints (.num b) := by
  simp only [calculateSwapVolumePoints, JNum.geC, decide_eq_true_eq]
  split_ifs <;> first | omega | linarith

theorem mono_tydroSupply (a b : ℚ) (h : a ≤ b) :
    getTydroSupplyTierPoints (.num a) ≤ getTydroSupplyTierPoints (.num b) := by
  simp only [getTydroSupplyTierPoints, JNum.geC, decide_eq_true_eq]
  split_ifs <;> first | omega | linarith

theorem mono_tydroBorrow (a b : ℚ) (h : a ≤ b) :
    getTydroBorrowTierPoints (.num a) ≤ getTydroBorrowTierPoints (.num b) := by
  simp only [getTydroBorrowTierPoints, JNum.geC, decide_eq_true_eq]
  split_ifs <;> first | omega | linarith

theorem mono_tydro (a1 b1 a2 b2 : ℚ) (h1 : a1 ≤ b1) (h2 : a2 ≤ b2) :
    calculateTydroPoints (.num a1) (.num a2) ≤ calculateTydroPoints (.num b1) (.num b2) :=
  Nat.add_le_add (mono_tydroSupply a1 b1 h1) (mono_tydroBorrow a2 b2 h2)

theorem mono_inkypump (a1 b1 a2 b2 a3 b3 : ℚ) (h1 : a1 ≤ b1) (h2 : a2 ≤ b2) (h3 : a3 ≤ b3) :
    calculateInkyPumpPoints (.num a1) (.num a2) (.num a3) ≤
      calculateInkyPumpPoints (.num b1) (.num b2) (.num b3) := by
  simp only [calculateInkyPumpPoints, JNum.add, JNum.geC, decide_eq_true_eq]
  refine Nat.add_le_add ?_ ?_ <;> split_ifs <;> first | omega | linarith

theorem mono_shellies (a1 b1 a2 b2 a3 b3 : ℚ) (h1 : a1 ≤ b1) (h2 : a2 ≤ b2) (h3 : a3 ≤ b3) :
    calculateShelliesPoints (.num a1) (.num a2) (.num a3) ≤
      calculateShelliesPoints (.num b1) (.num b2) (.num b3) := by
  simp only [calculateShelliesPoints, JNum.geC, decide_eq_true_eq]
  refine Nat.add_le_add (Nat.add_le_add ?_ ?_) ?_ <;>
    split_ifs <;> first | omega | linarith

theorem mono_zns (a1 b1 a2 b2 a3 b3 : ℚ) (h1 : a1 ≤ b1) (h2 : a2 ≤ b2) (h3 : a3 ≤ b3) :
    calculateZnsPoints (.num a1) (.num a2) (.num a3) ≤
      calculateZnsPoints (.num b1) (.num b2) (.num b3) := by
  simp only [calculateZnsPoints, JNum.geC, decide_eq_true_eq]
  refine Nat.add_le_add (Nat.add_le_add ?_ ?_) ?_ <;>
    split_ifs <;> first | omega | linarith

theorem mono_marvk (a1 b1 a2 b2 a3 b3 : ℚ) (h1 : a1 ≤ b1) (h2 : a2 ≤ b2) (h3 : a3 ≤ b3) :
    calculateMarvkPoints (.num a1) (.num a2) (.num a3) ≤
      calculateMarvkPoints (.num b1) (.num b2) (.num b3) := by
  simp only [calculateMarvkPoints, JNum.geC, decide_eq_true_eq]
  refine Nat.add_le_add (Nat.add_le_add ?_ ?_) ?_ <;>
    split_ifs <;> first | omega | linarith

set_option maxHeartbeats 1000000 in
theorem mono_nado (a1 b1 a2 b2 : ℚ) (h1 : a1 ≤ b1) (h2 : a2 ≤ b2) :
    calculateNadoPoints (.num a1) (.num a2) ≤ calculateNadoPoints (.num b1) (.num b2) := by
  simp only [calculateNadoPoints, JNum.geC, decide_eq_true_eq]
  refine Nat.add_le_add ?_ ?_ <;> split_ifs <;> first | omega | linarith

theorem mono_copink (a1 b1 a2 b2 : ℚ) (h1 : a1 ≤ b1) (h2 : a2 ≤ b2) :
    calculateCopinkPoints (.num a1) (.num a2) ≤ calculateCopinkPoints (.num b1) (.num b2) := by
  simp only [calculateCopinkPoints, JNum.geC, decide_eq_true_eq]
  refine Nat.add_le_add ?_ ?_ <;> split_ifs <;> first | omega | linarith

theorem mono_nft2me (a1 b1 a2 b2 : ℚ) (h1 : a1 ≤ b1) (h2 : a2 ≤ b2) :
    calculateNft2mePoints (.num a1) (.num a2) ≤ calculateNft2mePoints (.num b1) (.num b2) := by
  simp only [calculateNft2mePoints, JNum.geC, decide_eq_true_eq]
  refine Nat.add_le_add ?_ ?_ <;> split_ifs <;> first | omega | linarith

theorem mono_nftTrading (a1 b1 a2 b2 a3 b3 : ℚ) (h1 : a1 ≤ b1) (h2 : a2 ≤ b2) (h3 : a3 ≤ b3) :
    calculateNftTradingPoints (.num a1) (.num a2) (.num a3) ≤
      calculateNftTradingPoints (.num b1) (.num b2) (.num b3) := by
  simp only [calculateNftTradingPoints, JNum.add, JNum.geC, JNum.gtC, decide_eq_true_eq]
  refine Nat.add_le_add (Nat.add_le_add (Nat.add_le_add ?_ ?_) ?_) ?_ <;>
    split_ifs <;> first | omega | linarith

/-- C6: every Tier Resolver function is monotone in each of its numeric
arguments on non-NaN inputs (stated as simultaneous monotonicity in all
arguments, which specialises to per-argument monotonicity with the other
arguments held fixed, since `≤` is reflexive). -/
theorem claim_C6 :
    (∀ a b : ℚ, a ≤ b →
      calculateNftCollectionsPoints (.num a) ≤ calculateNftCollectionsPoints (.num b)) ∧
    (∀ a b : ℚ, a ≤ b →
      calculateWalletAgePoints (.num a) ≤ calculateWalletAgePoints (.num b)) ∧
    (∀ a b : ℚ, a ≤ b →
      calculateTotalTxPoints (.num a) ≤ calculateTotalTxPoints (.num b)) ∧
    (∀ a b : ℚ, a ≤ b →
      getBridgeVolumeTierPoints (.num a) ≤ getBridgeVolumeTierPoints (.num b)) ∧
    (∀ a b : ℚ, a ≤ b →
      calculateBridgeInPoints (.num a) ≤ calculateBridgeInPoints (.num b)) ∧
    (∀ a b : ℚ, a ≤ b →
      calculateBridgeOutPoints (.num a) ≤ calculateBridgeOutPoints (.num b)) ∧
    (∀ a b : ℚ, a ≤ b → calculateGmPoints (.num a) ≤ calculateGmPoints (.num b)) ∧
    (∀ a b : ℚ, a ≤ b →
      calculateSwapVolumePoints (.num a) ≤ calculateSwapVolumePoints (.num b)) ∧
    (∀ a b : ℚ, a ≤ b →
      getTydroSupplyTierPoints (.num a) ≤ getTydroSupplyTierPoints (.num b)) ∧
    (∀ a b : ℚ, a ≤ b →
      getTydroBorrowTierPoints (.num a) ≤ getTydroBorrowTierPoints (.num b)) ∧
    (∀ a1 b1 a2 b2 : ℚ, a1 ≤ b1 → a2 ≤ b2 →
      calculateTydroPoints (.num a1) (.num a2) ≤ calculateTydroPoints (.num b1) (.num b2)) ∧
    (∀ a1 b1 a2 b2 a3 b3 : ℚ, a1 ≤ b1 → a2 ≤ b2 → a3 ≤ b3 →
      calculateInkyPumpPoints (.num a1) (.num a2) (.num a3) ≤
        calculateInkyPumpPoints (.num b1) (.num b2) (.num b3)) ∧
    (∀ a1 b1 a2 b2 a3 b3 : ℚ, a1 ≤ b1 → a2 ≤ b2 → a3 ≤ b3 →
      calculateShelliesPoints (.num a1) (.num a2) (.num a3) ≤
        calculateShelliesPoints (.num b1) (.num b2) (.num b3)) ∧
    (∀ a1 b1 a2 b2 a3 b3 : ℚ, a1 ≤ b1 → a2 ≤ b2 → a3 ≤ b3 →
      calculateZnsPoints (.num a1) (.num a2) (.num a3) ≤
        calculateZnsPoints (.num b1) (.num b2) (.num b3)) ∧
    (∀ a1 b1 a2 b2 a3 b3 : ℚ, a1 ≤ b1 → a2 ≤ b2 → a3 ≤ b3 →
      calculateMarvkPoints (.num a1) (.num a2) (.num a3) ≤
        calculateMarvkPoints (.num b1) (.num b2) (.num b3)) ∧
    (∀ a1 b1 a2 b2 : ℚ, a1 ≤ b1 → a2 ≤ b2 →
      calculateNadoPoints (.num a1) (.num a2) ≤ calculateNadoPoints (.num b1) (.num b2)) ∧
    (∀ a1 b1 a2 b2 : ℚ, a1 ≤ b1 → a2 ≤ b2 →
      calculateCopinkPoints (.num a1) (.num a2) ≤ calculateCopinkPoints (.num b1) (.num b2)) ∧
    (∀ a1 b1 a2 b2 : ℚ, a1 ≤ b1 → a2 ≤ b2 →
      calculateNft2mePoints (.num a1) (.num a2) ≤ calculateNft2mePoints (.num b1) (.num b2)) ∧
    (∀ a1 b1 a2 b2 a3 b3 : ℚ, a1 ≤ b1 → a2 ≤ b2 → a3 ≤ b3 →
      calculateNftTradingPoints (.num a1) (.num a2) (.num a3) ≤
        calculateNftTradingPoints (.num b1) (.num b2) (.num b3)) :=
  ⟨mono_nft, mono_age, mono_tx, mono_bridgeTier,
   fun a b h => mono_bridgeTier a b h, fun a b h => mono_bridgeTier a b h,
   mono_gm, mono_swap, mono_tydroSupply, mono_tydroBorrow, mono_tydro,
   mono_inkypump, mono_shellies, mono_zns, mono_marvk, mono_nado, mono_copink,
   mono_nft2me, mono_nftTrading⟩

/-- Witness for C6: monotonicity instances at concrete inputs. -/
theorem claim_C6_witness :
    ((3 : ℚ) ≤ 7 ∧ (400 : ℚ) ≤ 800) ∧
    calculateNftCollectionsPoints (.num 3) ≤ calculateNftCollectionsPoints (.num 7) ∧
    calculateWalletAgePoints (.num 400) ≤ calculateWalletAgePoints (.num 800) ∧
    calculateNftTradingPoints (.num 0) (.num 1) (.num 2) ≤
      calculateNftTradingPoints (.num 1) (.num 4) (.num 6) :=
  ⟨⟨by norm_num, by norm_num⟩,
   claim_C6.1 3 7 (by norm_num),
   claim_C6.2.1 400 800 (by norm_num),
   claim_C6.2.2.2.2.2.2.2.2.2.2.2.2.2.2.2.2.2.2 0 1 1 4 2 6
     (by norm_num) (by norm_num) (by norm_num)⟩

end InkScore
